import Mathlib

/-!
Shallow embedding of `src/drivers/stepper/stepper_shell.c` (Zephyr stepper
motor shell, built with `CONFIG_STEPPER_SHELL_ASYNC` enabled, the
configuration the spec describes).

Each shell command handler is translated into a pure Lean function that
takes the device registry (`device_get_binding`), a driver oracle (the
external stepper capability interface of `zephyr/drivers/stepper.h`), and
the handler's `argv`, and returns the C function's `int` result together
with the trace of observable effects (capability calls, shell output,
thread operations).  The asynchronous commands additionally thread the
process-wide notifier state (`poll_thread_started` flag plus the abstract
idle/armed/fired state of `stepper_signal` from the spec's §3 data model).
-/

namespace StepperShell

/-! ### errno constants used by the source -/

def EINVAL : Int := 22
def ENODEV : Int := 19
def ENOEXEC : Int := 8

/-! ### C numeric parsing (`strtol`, `strtoul`, `atoi` with NULL endptr)

The handlers parse their numeric tokens with `strtol(s, NULL, 0)`,
`strtoul(s, NULL, 0)` and `atoi(s)` and never check for parse errors.
We model the C semantics: skip leading whitespace, optional sign, base
prefix detection for base 0 (`0x`/`0X` hex, leading `0` octal, else
decimal), longest valid digit prefix (an empty digit sequence yields 0),
clamping to the `long` range on overflow (64-bit `long`), and the
subsequent implementation-defined truncation when the `long` is stored
into an `int32_t`/`uint32_t`/`int`, modelled as wrap-around mod 2^32. -/

def digitVal (c : Char) : Nat :=
  if '0' ≤ c ∧ c ≤ '9' then c.toNat - '0'.toNat
  else if 'a' ≤ c ∧ c ≤ 'z' then c.toNat - 'a'.toNat + 10
  else if 'A' ≤ c ∧ c ≤ 'Z' then c.toNat - 'A'.toNat + 10
  else 36

def parseDigits (base : Nat) : List Char → Nat → Nat
  | [], acc => acc
  | c :: rest, acc =>
      if digitVal c < base then parseDigits base rest (acc * base + digitVal c) else acc

def isSpaceC (c : Char) : Bool :=
  c = ' ' || c = '\t' || c = '\n' || c = '\x0b' || c = '\x0c' || c = '\r'

/-- Sign and magnitude of the subject sequence, for a given base
(`base = 0` selects C base detection). -/
def strtoSignMag (base : Nat) (s : String) : Bool × Nat :=
  let cs := s.data.dropWhile isSpaceC
  let (neg, cs) : Bool × List Char :=
    match cs with
    | '-' :: rest => (true, rest)
    | '+' :: rest => (false, rest)
    | _ => (false, cs)
  let mag : Nat :=
    if base = 16 ∨ base = 0 then
      match cs with
      | '0' :: 'x' :: rest => parseDigits 16 rest 0
      | '0' :: 'X' :: rest => parseDigits 16 rest 0
      | _ =>
          if base = 16 then parseDigits 16 cs 0
          else match cs with
            | '0' :: rest => parseDigits 8 rest 0
            | _ => parseDigits 10 cs 0
    else parseDigits base cs 0
  (neg, mag)

def LONG_MAX : Int := 2 ^ 63 - 1
def LONG_MIN : Int := -(2 ^ 63)
def ULONG_MAX : Nat := 2 ^ 64 - 1

/-- `strtol(s, NULL, 0)`: value clamped to `[LONG_MIN, LONG_MAX]`. -/
def strtol (s : String) : Int :=
  let (neg, mag) := strtoSignMag 0 s
  let v : Int := if neg then -(mag : Int) else (mag : Int)
  max LONG_MIN (min LONG_MAX v)

/-- `strtoul(s, NULL, 0)`: overflow yields `ULONG_MAX`; a negated in-range
magnitude wraps in the unsigned return type. -/
def strtoul (s : String) : Nat :=
  let (neg, mag) := strtoSignMag 0 s
  if mag > ULONG_MAX then ULONG_MAX
  else if neg then (2 ^ 64 - mag) % 2 ^ 64
  else mag

/-- Store a parsed `long` into an `int32_t` (or `int`): wrap mod 2^32. -/
def toInt32 (n : Int) : Int :=
  (n + 2 ^ 31) % 2 ^ 32 - 2 ^ 31

/-- Store a parsed `unsigned long` into a `uint32_t`. -/
def toUInt32n (n : Nat) : Nat := n % 2 ^ 32

/-- `atoi(s)` = `(int)strtol(s, NULL, 10)`. -/
def atoi (s : String) : Int :=
  let (neg, mag) := strtoSignMag 10 s
  let v : Int := if neg then -(mag : Int) else (mag : Int)
  toInt32 (max LONG_MIN (min LONG_MAX v))

/-! ### Observable effects -/

/-- One observable effect of a handler: an invocation of a stepper
capability, a line of shell output, or a notifier-thread operation. -/
inductive Event where
  | hwEnable (dev : String) (en : Bool)
  | hwMove (dev : String) (microSteps : Int) (withSignal : Bool)
  | hwSetMaxVelocity (dev : String) (velocity : Nat)
  | hwSetMicroStepRes (dev : String) (resolution : Int)
  | hwSetActualPosition (dev : String) (position : Int)
  | hwSetTargetPosition (dev : String) (position : Int) (withSignal : Bool)
  | hwEnableConstVelMode (dev : String) (direction : Int) (velocity : Nat)
  | hwGetActualPosition (dev : String)
  | hwGetMicroStepRes (dev : String)
  | hwIsMoving (dev : String)
  | shellError (msg : String)
  | shellWarn (msg : String)
  | shellPrint (msg : String)
  | signalInit
  | threadCreate
  | threadStart
  deriving DecidableEq, Repr

/-- Is the event an invocation of a hardware capability
(`stepper_*` call on the driver)? -/
def Event.isHwCall : Event → Bool
  | .hwEnable _ _ => true
  | .hwMove _ _ _ => true
  | .hwSetMaxVelocity _ _ => true
  | .hwSetMicroStepRes _ _ => true
  | .hwSetActualPosition _ _ => true
  | .hwSetTargetPosition _ _ _ => true
  | .hwEnableConstVelMode _ _ _ => true
  | .hwGetActualPosition _ => true
  | .hwGetMicroStepRes _ => true
  | .hwIsMoving _ => true
  | _ => false

/-! ### External collaborators -/

/-- `device_get_binding`: maps a device-name token to the device handle,
`none` when no device of that name is registered.  The handle is
identified with the device name (all the shell uses of the handle pass
it back to the driver or print `dev->name`). -/
abbrev Registry := String → Option String

/-- Oracle for the external stepper capability interface: each operation
returns the driver's `int` error code (0 = success); the three queries
additionally return the out-parameter value they would store. -/
structure Driver where
  enable : String → Bool → Int
  move : String → Int → Int
  set_max_velocity : String → Nat → Int
  set_micro_step_res : String → Int → Int
  set_actual_position : String → Int → Int
  set_target_position : String → Int → Int
  enable_constant_velocity_mode : String → Int → Nat → Int
  get_actual_position : String → Int × Int
  get_micro_step_res : String → Int × Int
  is_moving : String → Int × Bool

/-! ### Notifier state (spec §3 / §4.3)

`poll_thread_started` is the C static flag.  `sig` is the spec's abstract
state of the one `stepper_signal` slot: `idle` (reset / never raised),
`armed` (a handler has handed the signal handle to an asynchronous
capability call and awaits completion), `fired` (the driver raised it,
not yet consumed by the listener). -/

inductive SigState where
  | idle
  | armed
  | fired
  deriving DecidableEq, Repr

structure AsyncState where
  poll_thread_started : Bool
  sig : SigState
  deriving DecidableEq, Repr

/-- Process-start state: no listener thread, signal slot untouched. -/
def initAsyncState : AsyncState := ⟨false, .idle⟩

/-! ### The handlers -/

def arg_idx_dev : Nat := 1
def arg_idx_param : Nat := 2
def arg_idx_value : Nat := 3

/-- `parse_device_arg`: resolve `argv[arg_idx_dev]`; on failure print the
error and return `-ENODEV`.  Result: `(return value, trace, resolved
device if any)`. -/
def parse_device_arg (reg : Registry) (argv : List String) :
    Int × List Event × Option String :=
  match reg (argv.getD arg_idx_dev "") with
  | none =>
      (-ENODEV,
       [.shellError ("Stepper device " ++ argv.getD arg_idx_dev "" ++ " not found")],
       none)
  | some dev => (0, [], some dev)

/-- `start_polling` (CONFIG_STEPPER_SHELL_ASYNC): lazily create and start
the listener thread.  `createOk` models whether `k_thread_create` returns
a valid tid.  `k_poll_signal_init` resets the signal slot. -/
def start_polling (createOk : Bool) (st : AsyncState) :
    Int × List Event × AsyncState :=
  if !st.poll_thread_started then
    if createOk then
      (0, [.signalInit, .threadCreate, .threadStart],
       { poll_thread_started := true, sig := .idle })
    else
      (-ENOEXEC, [.signalInit, .shellError "Cannot start poll thread"],
       { st with sig := .idle })
  else
    (0, [], st)

/-- Tail of every synchronous handler: issue the capability call recorded
as `ev` with result `err`; on non-zero `err` also print "Error: %d";
return `err`. -/
def reportCap (err : Int) (ev : Event) : Int × List Event :=
  if err ≠ 0 then (err, [ev, .shellError ("Error: " ++ toString err)])
  else (err, [ev])

/-- `cmd_stepper_enable`. -/
def cmd_stepper_enable (reg : Registry) (drv : Driver) (argv : List String) :
    Int × List Event :=
  let afterToken := fun (enable : Bool) =>
    match parse_device_arg reg argv with
    | (e, tr, none) => (e, tr)
    | (_, tr, some dev) =>
        let r := reportCap (drv.enable dev enable) (.hwEnable dev enable)
        (r.1, tr ++ r.2)
  if argv.getD arg_idx_param "" = "on" then afterToken true
  else if argv.getD arg_idx_param "" = "off" then afterToken false
  else (-EINVAL, [.shellError ("Invalid enable value: " ++ argv.getD arg_idx_param "")])

/-- `cmd_stepper_move` (CONFIG_STEPPER_SHELL_ASYNC): parse the step count,
resolve the device, call `start_polling` DISCARDING its result, then issue
`stepper_move` with the shared signal handle (which arms the signal,
§4.3). -/
def cmd_stepper_move (reg : Registry) (drv : Driver) (createOk : Bool)
    (st : AsyncState) (argv : List String) : Int × List Event × AsyncState :=
  let micro_steps : Int := toInt32 (strtol (argv.getD arg_idx_param ""))
  match parse_device_arg reg argv with
  | (e, tr, none) => (e, tr, st)
  | (_, tr, some dev) =>
      let p := start_polling createOk st
      let r := reportCap (drv.move dev micro_steps) (.hwMove dev micro_steps true)
      (r.1, tr ++ p.2.1 ++ r.2, { p.2.2 with sig := .armed })

/-- `cmd_stepper_set_max_velocity`. -/
def cmd_stepper_set_max_velocity (reg : Registry) (drv : Driver)
    (argv : List String) : Int × List Event :=
  let velocity : Nat := toUInt32n (strtoul (argv.getD arg_idx_param ""))
  match parse_device_arg reg argv with
  | (e, tr, none) => (e, tr)
  | (_, tr, some dev) =>
      let r := reportCap (drv.set_max_velocity dev velocity) (.hwSetMaxVelocity dev velocity)
      (r.1, tr ++ r.2)

/-- `cmd_stepper_set_micro_step_res` (the `enum micro_step_resolution`
value is represented by its integer code). -/
def cmd_stepper_set_micro_step_res (reg : Registry) (drv : Driver)
    (argv : List String) : Int × List Event :=
  let resolution : Int := atoi (argv.getD arg_idx_param "")
  match parse_device_arg reg argv with
  | (e, tr, none) => (e, tr)
  | (_, tr, some dev) =>
      let r := reportCap (drv.set_micro_step_res dev resolution) (.hwSetMicroStepRes dev resolution)
      (r.1, tr ++ r.2)

/-- `cmd_stepper_set_actual_position`. -/
def cmd_stepper_set_actual_position (reg : Registry) (drv : Driver)
    (argv : List String) : Int × List Event :=
  let position : Int := toInt32 (strtol (argv.getD arg_idx_param ""))
  match parse_device_arg reg argv with
  | (e, tr, none) => (e, tr)
  | (_, tr, some dev) =>
      let r := reportCap (drv.set_actual_position dev position) (.hwSetActualPosition dev position)
      (r.1, tr ++ r.2)

/-- `cmd_stepper_set_target_position` (CONFIG_STEPPER_SHELL_ASYNC): same
structure as `cmd_stepper_move`. -/
def cmd_stepper_set_target_position (reg : Registry) (drv : Driver) (createOk : Bool)
    (st : AsyncState) (argv : List String) : Int × List Event × AsyncState :=
  let position : Int := toInt32 (strtol (argv.getD arg_idx_param ""))
  match parse_device_arg reg argv with
  | (e, tr, none) => (e, tr, st)
  | (_, tr, some dev) =>
      let p := start_polling createOk st
      let r := reportCap (drv.set_target_position dev position)
          (.hwSetTargetPosition dev position true)
      (r.1, tr ++ p.2.1 ++ r.2, { p.2.2 with sig := .armed })

/-- `cmd_stepper_enable_constant_velocity_mode`. -/
def cmd_stepper_enable_constant_velocity_mode (reg : Registry) (drv : Driver)
    (argv : List String) : Int × List Event :=
  let direction : Int := atoi (argv.getD arg_idx_param "")
  let velocity : Nat := toUInt32n (strtoul (argv.getD arg_idx_value ""))
  match parse_device_arg reg argv with
  | (e, tr, none) => (e, tr)
  | (_, tr, some dev) =>
      let r := reportCap (drv.enable_constant_velocity_mode dev direction velocity)
          (.hwEnableConstVelMode dev direction velocity)
      (r.1, tr ++ r.2)

/-- `cmd_stepper_info`: after resolving the device, runs the three queries
unconditionally; each failing query (err < 0) prints a warning, each
succeeding one prints its value; returns 0. -/
def cmd_stepper_info (reg : Registry) (drv : Driver) (argv : List String) :
    Int × List Event :=
  match parse_device_arg reg argv with
  | (e, tr, none) => (e, tr)
  | (_, tr, some dev) =>
      let (e1, actual_position) := drv.get_actual_position dev
      let (e2, micro_step_res) := drv.get_micro_step_res dev
      let (e3, is_moving) := drv.is_moving dev
      (0,
       tr ++ [.shellPrint "Stepper Info:", .shellPrint ("Device: " ++ dev)]
          ++ [.hwGetActualPosition dev]
          ++ (if e1 < 0 then [.shellWarn ("Failed to get actual position: " ++ toString e1)]
              else [.shellPrint ("Actual Position: " ++ toString actual_position)])
          ++ [.hwGetMicroStepRes dev]
          ++ (if e2 < 0 then
                [.shellWarn ("Failed to get micro-step resolution: " ++ toString e2)]
              else [.shellPrint ("Micro-step Resolution: " ++ toString micro_step_res)])
          ++ [.hwIsMoving dev]
          ++ (if e3 < 0 then
                [.shellWarn ("Failed to check if the motor is moving: " ++ toString e3)]
              else [.shellPrint ("Is Moving: " ++ (if is_moving then "Yes" else "No"))]))

/-! ### The listener thread (CONFIG_STEPPER_SHELL_ASYNC)

`stepper_poll_thread` is an infinite loop; we embed the body of one
wake-up.  `k_poll` returned because the signal was raised carrying driver
result `r`; the body compares `r` against `STEPPER_SIGNAL_STEPS_COMPLETED`
and, on a match, prints the completion notice and resets the signal
(`k_poll_signal_reset`).  On any other result the body does nothing. -/

/-- Value of `STEPPER_SIGNAL_STEPS_COMPLETED` from
`zephyr/drivers/stepper.h` (external interface; the spec's §4.3 treats a
firing of the signal as a completion report from the driver). -/
def STEPPER_SIGNAL_STEPS_COMPLETED : Int := 0

def stepper_poll_thread_iteration (r : Int) (sig : SigState) :
    List Event × SigState :=
  if r = STEPPER_SIGNAL_STEPS_COMPLETED then
    ([.shellPrint "Stepper: All steps completed"], .idle)
  else
    ([], sig)

/-! ### The command table, and sequences of commands -/

/-- The eight subcommands registered in `stepper_cmds`. -/
inductive Cmd where
  | enable
  | move
  | set_max_velocity
  | set_micro_step_res
  | set_actual_position
  | set_target_position
  | enable_constant_velocity_mode
  | info
  deriving DecidableEq, Repr

/-- Dispatch one command line in the command-handling context.
Synchronous handlers leave the notifier state untouched (they never
reference `stepper_signal` or the poll thread). -/
def runShellCmd (reg : Registry) (drv : Driver) (createOk : Bool)
    (st : AsyncState) (c : Cmd) (argv : List String) :
    Int × List Event × AsyncState :=
  match c with
  | .enable => let (e, tr) := cmd_stepper_enable reg drv argv; (e, tr, st)
  | .move => cmd_stepper_move reg drv createOk st argv
  | .set_max_velocity =>
      let (e, tr) := cmd_stepper_set_max_velocity reg drv argv; (e, tr, st)
  | .set_micro_step_res =>
      let (e, tr) := cmd_stepper_set_micro_step_res reg drv argv; (e, tr, st)
  | .set_actual_position =>
      let (e, tr) := cmd_stepper_set_actual_position reg drv argv; (e, tr, st)
  | .set_target_position => cmd_stepper_set_target_position reg drv createOk st argv
  | .enable_constant_velocity_mode =>
      let (e, tr) := cmd_stepper_enable_constant_velocity_mode reg drv argv; (e, tr, st)
  | .info => let (e, tr) := cmd_stepper_info reg drv argv; (e, tr, st)

/-- Run a sequence of command lines (thread creation succeeding whenever
attempted), accumulating the combined effect trace. -/
def runShellCmds (reg : Registry) (drv : Driver) :
    List (Cmd × List String) → AsyncState → List Event × AsyncState
  | [], st => ([], st)
  | (c, argv) :: rest, st =>
      let (_, tr, st') := runShellCmd reg drv true st c argv
      let (tr2, st'') := runShellCmds reg drv rest st'
      (tr ++ tr2, st'')

/-! ### Concrete fixtures (used by witnesses and counterexamples) -/

/-- A registry with the single device "motorA". -/
def regA : Registry := fun s => if s = "motorA" then some "motorA" else none

/-- A driver whose every operation succeeds. -/
def drvZero : Driver where
  enable := fun _ _ => 0
  move := fun _ _ => 0
  set_max_velocity := fun _ _ => 0
  set_micro_step_res := fun _ _ => 0
  set_actual_position := fun _ _ => 0
  set_target_position := fun _ _ => 0
  enable_constant_velocity_mode := fun _ _ _ => 0
  get_actual_position := fun _ => (0, 42)
  get_micro_step_res := fun _ => (0, 4)
  is_moving := fun _ => (0, true)

/-- A driver whose every operation fails with -5. -/
def drvErr : Driver where
  enable := fun _ _ => -5
  move := fun _ _ => -5
  set_max_velocity := fun _ _ => -5
  set_micro_step_res := fun _ _ => -5
  set_actual_position := fun _ _ => -5
  set_target_position := fun _ _ => -5
  enable_constant_velocity_mode := fun _ _ _ => -5
  get_actual_position := fun _ => (-5, 0)
  get_micro_step_res := fun _ => (-5, 0)
  is_moving := fun _ => (-5, false)

/-- A driver where `get_actual_position` and `get_micro_step_res` succeed
but `is_moving` fails (the spec's §8 partial-success scenario). -/
def drvMixed : Driver where
  enable := fun _ _ => 0
  move := fun _ _ => 0
  set_max_velocity := fun _ _ => 0
  set_micro_step_res := fun _ _ => 0
  set_actual_position := fun _ _ => 0
  set_target_position := fun _ _ => 0
  enable_constant_velocity_mode := fun _ _ _ => 0
  get_actual_position := fun _ => (0, 42)
  get_micro_step_res := fun _ => (0, 4)
  is_moving := fun _ => (-5, false)

/-! ### Helper lemmas -/

theorem reportCap_fst (err : Int) (ev : Event) : (reportCap err ev).1 = err := by
  unfold reportCap; split <;> rfl

theorem reportCap_mem (err : Int) (ev : Event) : ev ∈ (reportCap err ev).2 := by
  unfold reportCap; split <;> simp

theorem reportCap_countP_hw (err : Int) (ev : Event) :
    (reportCap err ev).2.countP Event.isHwCall = if ev.isHwCall then 1 else 0 := by
  unfold reportCap; split <;> simp [List.countP_cons, Event.isHwCall]

theorem parse_device_arg_some {reg : Registry} {argv : List String} {dev : String}
    (h : reg (argv.getD arg_idx_dev "") = some dev) :
    parse_device_arg reg argv = (0, [], some dev) := by
  unfold parse_device_arg; rw [h]

theorem parse_device_arg_none {reg : Registry} {argv : List String}
    (h : reg (argv.getD arg_idx_dev "") = none) :
    parse_device_arg reg argv =
      (-ENODEV,
       [.shellError ("Stepper device " ++ argv.getD arg_idx_dev "" ++ " not found")],
       none) := by
  unfold parse_device_arg; rw [h]

/-! ### Claim C10 -/

/-- C10: for every `info` command on a device that resolves, the command's
own result is 0, whatever the three queries return: query failures never
propagate into `info`'s return value. -/
theorem C10_info_returns_zero (reg : Registry) (drv : Driver) (argv : List String)
    (dev : String) (h : reg (argv.getD arg_idx_dev "") = some dev) :
    (cmd_stepper_info reg drv argv).1 = 0 := by
  unfold cmd_stepper_info
  rw [parse_device_arg_some h]

/-- C10 witness: `info motorA` with the all-failing driver still returns 0. -/
theorem C10_info_returns_zero_witness :
    (cmd_stepper_info regA drvErr ["info", "motorA"]).1 = 0 :=
  C10_info_returns_zero regA drvErr ["info", "motorA"] "motorA" rfl

/-! ### Claim C8 -/

/-- C8: for every `info` command on a resolved device, each of the three
queries is attempted regardless of the others' outcomes; a failing query
(err < 0) produces a warning while each succeeding query's value is still
printed. -/
theorem C8_info_partial_success (reg : Registry) (drv : Driver) (argv : List String)
    (dev : String) (h : reg (argv.getD arg_idx_dev "") = some dev) :
    Event.hwGetActualPosition dev ∈ (cmd_stepper_info reg drv argv).2 ∧
    Event.hwGetMicroStepRes dev ∈ (cmd_stepper_info reg drv argv).2 ∧
    Event.hwIsMoving dev ∈ (cmd_stepper_info reg drv argv).2 ∧
    ((drv.get_actual_position dev).1 < 0 →
      Event.shellWarn ("Failed to get actual position: " ++
        toString (drv.get_actual_position dev).1) ∈ (cmd_stepper_info reg drv argv).2) ∧
    (¬ (drv.get_actual_position dev).1 < 0 →
      Event.shellPrint ("Actual Position: " ++
        toString (drv.get_actual_position dev).2) ∈ (cmd_stepper_info reg drv argv).2) ∧
    ((drv.get_micro_step_res dev).1 < 0 →
      Event.shellWarn ("Failed to get micro-step resolution: " ++
        toString (drv.get_micro_step_res dev).1) ∈ (cmd_stepper_info reg drv argv).2) ∧
    (¬ (drv.get_micro_step_res dev).1 < 0 →
      Event.shellPrint ("Micro-step Resolution: " ++
        toString (drv.get_micro_step_res dev).2) ∈ (cmd_stepper_info reg drv argv).2) ∧
    ((drv.is_moving dev).1 < 0 →
      Event.shellWarn ("Failed to check if the motor is moving: " ++
        toString (drv.is_moving dev).1) ∈ (cmd_stepper_info reg drv argv).2) ∧
    (¬ (drv.is_moving dev).1 < 0 →
      Event.shellPrint ("Is Moving: " ++
        (if (drv.is_moving dev).2 then "Yes" else "No")) ∈ (cmd_stepper_info reg drv argv).2) := by
  unfold cmd_stepper_info
  rw [parse_device_arg_some h]
  refine ⟨by simp, by simp, by simp, ?_, ?_, ?_, ?_, ?_, ?_⟩ <;>
    · intro hq
      simp [hq]

/-- C8 witness: on `info motorA` with the driver whose `is_moving` fails
while the position and resolution queries succeed, all three queries are
attempted, the position is still reported, and the failure produces a
warning. -/
theorem C8_info_partial_success_witness :
    Event.hwGetActualPosition "motorA" ∈ (cmd_stepper_info regA drvMixed ["info", "motorA"]).2 ∧
    Event.shellPrint "Actual Position: 42" ∈ (cmd_stepper_info regA drvMixed ["info", "motorA"]).2 ∧
    Event.shellWarn "Failed to check if the motor is moving: -5" ∈
      (cmd_stepper_info regA drvMixed ["info", "motorA"]).2 := by
  have h := C8_info_partial_success regA drvMixed ["info", "motorA"] "motorA" rfl
  exact ⟨h.1, h.2.2.2.2.1 (by decide), h.2.2.2.2.2.2.2.1 (by decide)⟩

/-! ### Claim C2 -/

/-- C2: when the listener thread wakes with the Completion Signal fired
(the driver raised it with the steps-completed result), the iteration
prints exactly one completion notice and resets the signal to idle, after
which it can be armed again. -/
theorem C2_listener_reports_once_and_resets :
    stepper_poll_thread_iteration STEPPER_SIGNAL_STEPS_COMPLETED .fired =
      ([.shellPrint "Stepper: All steps completed"], .idle) := rfl

/-! ### Claim C6 -/

/-- C6: for `set_target_position` (and `move`) on an unresolved device
name, the command returns -ENODEV with only the error message in its
trace — in particular no capability call, no thread creation — and the
notifier state (started flag and signal) is returned unchanged. -/
theorem C6_unknown_device_no_signal_transition (reg : Registry) (drv : Driver)
    (createOk : Bool) (st : AsyncState) (argv : List String)
    (h : reg (argv.getD arg_idx_dev "") = none) :
    cmd_stepper_set_target_position reg drv createOk st argv =
      (-ENODEV,
       [.shellError ("Stepper device " ++ argv.getD arg_idx_dev "" ++ " not found")], st) ∧
    cmd_stepper_move reg drv createOk st argv =
      (-ENODEV,
       [.shellError ("Stepper device " ++ argv.getD arg_idx_dev "" ++ " not found")], st) := by
  unfold cmd_stepper_set_target_position cmd_stepper_move
  rw [parse_device_arg_none h]
  exact ⟨rfl, rfl⟩

/-- C6 witness: `set_target_position ghost 100` with `ghost` unregistered
returns -ENODEV and leaves the initial notifier state untouched. -/
theorem C6_unknown_device_no_signal_transition_witness :
    cmd_stepper_set_target_position regA drvZero true initAsyncState
        ["set_target_position", "ghost", "100"] =
      (-ENODEV, [.shellError "Stepper device ghost not found"], initAsyncState) :=
  (C6_unknown_device_no_signal_transition regA drvZero true initAsyncState
    ["set_target_position", "ghost", "100"] rfl).1

/-! ### Claim C7 -/

/-- C7: `enable` with a token outside {"on","off"} returns -EINVAL with no
capability call; with token "on" on a resolved device the capability is
invoked with true, and with "off" with false. -/
theorem C7_enable_token_semantics (reg : Registry) (drv : Driver)
    (argv : List String) (dev : String) :
    (argv.getD arg_idx_param "" ≠ "on" → argv.getD arg_idx_param "" ≠ "off" →
      cmd_stepper_enable reg drv argv =
        (-EINVAL, [.shellError ("Invalid enable value: " ++ argv.getD arg_idx_param "")])) ∧
    (reg (argv.getD arg_idx_dev "") = some dev → argv.getD arg_idx_param "" = "on" →
      Event.hwEnable dev true ∈ (cmd_stepper_enable reg drv argv).2) ∧
    (reg (argv.getD arg_idx_dev "") = some dev → argv.getD arg_idx_param "" = "off" →
      Event.hwEnable dev false ∈ (cmd_stepper_enable reg drv argv).2) := by
  refine ⟨fun h1 h2 => ?_, fun hd h1 => ?_, fun hd h1 => ?_⟩ <;>
    · unfold cmd_stepper_enable
      simp only [h1]
      try simp only [h2]
      try rw [parse_device_arg_some hd]
      simp [reportCap_mem]

/-- C7 witness: `enable motorA junk` is rejected with -EINVAL, and
`enable motorA on` invokes the capability with true. -/
theorem C7_enable_token_semantics_witness :
    cmd_stepper_enable regA drvZero ["enable", "motorA", "junk"] =
      (-EINVAL, [.shellError "Invalid enable value: junk"]) ∧
    Event.hwEnable "motorA" true ∈ (cmd_stepper_enable regA drvZero ["enable", "motorA", "on"]).2 :=
  ⟨(C7_enable_token_semantics regA drvZero ["enable", "motorA", "junk"] "motorA").1
      (by decide) (by decide),
   (C7_enable_token_semantics regA drvZero ["enable", "motorA", "on"] "motorA").2.1 rfl rfl⟩

/-! ### Claim C5 -/

/-- C5 counterexample: `enable ghost junk` with `ghost` unregistered does
NOT return DeviceNotFound — the token check precedes device resolution, so
it returns -EINVAL. -/
theorem C5_counterexample_enable_invalid_token :
    (cmd_stepper_enable regA drvZero ["enable", "ghost", "junk"]).1 = -EINVAL ∧
    (cmd_stepper_enable regA drvZero ["enable", "ghost", "junk"]).1 ≠ -ENODEV := by
  refine ⟨rfl, by decide⟩

/-- C5 amended: for every command, an unresolved device name causes no
capability call; every command except `enable` with an invalid on/off
token returns -ENODEV; `enable` checks its token before resolving the
device, so with a token outside {"on","off"} it returns -EINVAL even when
the device is also unknown. -/
theorem C5_amended_unknown_device (c : Cmd) (reg : Registry) (drv : Driver)
    (createOk : Bool) (st : AsyncState) (argv : List String)
    (h : reg (argv.getD arg_idx_dev "") = none) :
    (runShellCmd reg drv createOk st c argv).2.1.countP Event.isHwCall = 0 ∧
    ((runShellCmd reg drv createOk st c argv).1 = -ENODEV ∨
      (c = .enable ∧ (runShellCmd reg drv createOk st c argv).1 = -EINVAL ∧
        argv.getD arg_idx_param "" ≠ "on" ∧ argv.getD arg_idx_param "" ≠ "off")) ∧
    (c = .enable → (argv.getD arg_idx_param "" = "on" ∨ argv.getD arg_idx_param "" = "off") →
      (runShellCmd reg drv createOk st c argv).1 = -ENODEV) := by
  cases c
  case enable =>
    simp only [runShellCmd, cmd_stepper_enable]
    by_cases hon : argv.getD arg_idx_param "" = "on"
    · rw [if_pos hon, parse_device_arg_none h]
      exact ⟨rfl, Or.inl rfl, fun _ _ => rfl⟩
    · rw [if_neg hon]
      by_cases hoff : argv.getD arg_idx_param "" = "off"
      · rw [if_pos hoff, parse_device_arg_none h]
        exact ⟨rfl, Or.inl rfl, fun _ _ => rfl⟩
      · rw [if_neg hoff]
        refine ⟨rfl, Or.inr ⟨trivial, rfl, hon, hoff⟩, fun _ hor => ?_⟩
        rcases hor with hc | hc
        · exact absurd hc hon
        · exact absurd hc hoff
  all_goals
    simp [runShellCmd, cmd_stepper_move, cmd_stepper_set_max_velocity,
      cmd_stepper_set_micro_step_res, cmd_stepper_set_actual_position,
      cmd_stepper_set_target_position, cmd_stepper_enable_constant_velocity_mode,
      cmd_stepper_info, parse_device_arg_none h, Event.isHwCall]

/-- C5 amended witness: `set_max_velocity ghost 100` with `ghost`
unregistered makes no capability call and returns -ENODEV. -/
theorem C5_amended_unknown_device_witness :
    (runShellCmd regA drvZero true initAsyncState .set_max_velocity
        ["set_max_velocity", "ghost", "100"]).2.1.countP Event.isHwCall = 0 ∧
    ((runShellCmd regA drvZero true initAsyncState .set_max_velocity
        ["set_max_velocity", "ghost", "100"]).1 = -ENODEV ∨
      (Cmd.set_max_velocity = .enable ∧
        (runShellCmd regA drvZero true initAsyncState .set_max_velocity
          ["set_max_velocity", "ghost", "100"]).1 = -EINVAL ∧
        ("ghost" : String) ≠ "on" ∧ ("ghost" : String) ≠ "off")) :=
  ⟨(C5_amended_unknown_device .set_max_velocity regA drvZero true initAsyncState
      ["set_max_velocity", "ghost", "100"] rfl).1,
   by
    have h := (C5_amended_unknown_device .set_max_velocity regA drvZero true initAsyncState
      ["set_max_velocity", "ghost", "100"] rfl).2.1
    simpa using h⟩

/-! ### Claim C4 -/

/-- C4 counterexample: `move motorA abc` — a malformed numeric token —
does NOT yield -EINVAL: `strtol` parses "abc" as 0 with no error check,
and the hardware call `stepper_move(dev, 0, ...)` is issued. -/
theorem C4_counterexample_malformed_argument :
    (cmd_stepper_move regA drvZero true initAsyncState ["move", "motorA", "abc"]).1 = 0 ∧
    (cmd_stepper_move regA drvZero true initAsyncState ["move", "motorA", "abc"]).1 ≠ -EINVAL ∧
    Event.hwMove "motorA" 0 true ∈
      (cmd_stepper_move regA drvZero true initAsyncState ["move", "motorA", "abc"]).2.1 := by
  refine ⟨rfl, by decide, by decide⟩

/-- C4 amended: the numeric-argument commands never validate their
tokens: whatever the token, it is parsed with C `strtol`/`strtoul`/`atoi`
semantics (a malformed token parses as 0, out-of-range values
clamp/wrap), the corresponding capability call is issued with the parsed
value, and the command returns that call's code — no -EINVAL is ever
produced for a numeric argument. -/
theorem C4_amended_numeric_args_unvalidated (reg : Registry) (drv : Driver)
    (createOk : Bool) (st : AsyncState) (argv : List String) (dev : String)
    (h : reg (argv.getD arg_idx_dev "") = some dev) :
    ((cmd_stepper_move reg drv createOk st argv).1 =
        drv.move dev (toInt32 (strtol (argv.getD arg_idx_param ""))) ∧
      Event.hwMove dev (toInt32 (strtol (argv.getD arg_idx_param ""))) true ∈
        (cmd_stepper_move reg drv createOk st argv).2.1) ∧
    ((cmd_stepper_set_max_velocity reg drv argv).1 =
        drv.set_max_velocity dev (toUInt32n (strtoul (argv.getD arg_idx_param ""))) ∧
      Event.hwSetMaxVelocity dev (toUInt32n (strtoul (argv.getD arg_idx_param ""))) ∈
        (cmd_stepper_set_max_velocity reg drv argv).2) ∧
    ((cmd_stepper_set_micro_step_res reg drv argv).1 =
        drv.set_micro_step_res dev (atoi (argv.getD arg_idx_param "")) ∧
      Event.hwSetMicroStepRes dev (atoi (argv.getD arg_idx_param "")) ∈
        (cmd_stepper_set_micro_step_res reg drv argv).2) ∧
    ((cmd_stepper_set_actual_position reg drv argv).1 =
        drv.set_actual_position dev (toInt32 (strtol (argv.getD arg_idx_param ""))) ∧
      Event.hwSetActualPosition dev (toInt32 (strtol (argv.getD arg_idx_param ""))) ∈
        (cmd_stepper_set_actual_position reg drv argv).2) ∧
    ((cmd_stepper_set_target_position reg drv createOk st argv).1 =
        drv.set_target_position dev (toInt32 (strtol (argv.getD arg_idx_param ""))) ∧
      Event.hwSetTargetPosition dev (toInt32 (strtol (argv.getD arg_idx_param ""))) true ∈
        (cmd_stepper_set_target_position reg drv createOk st argv).2.1) ∧
    ((cmd_stepper_enable_constant_velocity_mode reg drv argv).1 =
        drv.enable_constant_velocity_mode dev (atoi (argv.getD arg_idx_param ""))
          (toUInt32n (strtoul (argv.getD arg_idx_value ""))) ∧
      Event.hwEnableConstVelMode dev (atoi (argv.getD arg_idx_param ""))
          (toUInt32n (strtoul (argv.getD arg_idx_value ""))) ∈
        (cmd_stepper_enable_constant_velocity_mode reg drv argv).2) := by
  refine ⟨⟨?_, ?_⟩, ⟨?_, ?_⟩, ⟨?_, ?_⟩, ⟨?_, ?_⟩, ⟨?_, ?_⟩, ⟨?_, ?_⟩⟩ <;>
    simp [cmd_stepper_move, cmd_stepper_set_max_velocity, cmd_stepper_set_micro_step_res,
      cmd_stepper_set_actual_position, cmd_stepper_set_target_position,
      cmd_stepper_enable_constant_velocity_mode, parse_device_arg_some h,
      reportCap_fst, reportCap_mem]

/-- C4 amended witness: `set_actual_position motorA zzz` issues
`set_actual_position(motorA, 0)` and returns the driver's code. -/
theorem C4_amended_numeric_args_unvalidated_witness :
    (cmd_stepper_set_actual_position regA drvZero
        ["set_actual_position", "motorA", "zzz"]).1 =
      drvZero.set_actual_position "motorA" (toInt32 (strtol "zzz")) ∧
    Event.hwSetActualPosition "motorA" (toInt32 (strtol "zzz")) ∈
      (cmd_stepper_set_actual_position regA drvZero
        ["set_actual_position", "motorA", "zzz"]).2 :=
  (C4_amended_numeric_args_unvalidated regA drvZero true initAsyncState
    ["set_actual_position", "motorA", "zzz"] "motorA" rfl).2.2.2.1

/-! ### Claim C3 -/

/-- C3 counterexample: with thread creation failing, `move motorA 100`
does NOT fail with -ENOEXEC and the hardware call IS issued — the handler
discards `start_polling`'s result and returns the capability's code. -/
theorem C3_counterexample_thread_failure_not_fatal :
    (cmd_stepper_move regA drvZero false initAsyncState ["move", "motorA", "100"]).1 = 0 ∧
    (cmd_stepper_move regA drvZero false initAsyncState ["move", "motorA", "100"]).1 ≠
      -ENOEXEC ∧
    Event.hwMove "motorA" 100 true ∈
      (cmd_stepper_move regA drvZero false initAsyncState ["move", "motorA", "100"]).2.1 := by
  refine ⟨rfl, by decide, by decide⟩

/-- C3 amended: when listener-thread creation fails during an
asynchronous command, `start_polling` reports "Cannot start poll thread"
(returning -ENOEXEC internally) and leaves the started flag unset, but
the command discards that result: the hardware call is still issued and
the command's result is the capability call's code.  Commands other than
`move`/`set_target_position` never touch the notifier state. -/
theorem C3_amended_thread_failure_reported_not_propagated (reg : Registry)
    (drv : Driver) (st : AsyncState) (argv : List String) (dev : String)
    (h : reg (argv.getD arg_idx_dev "") = some dev)
    (hs : st.poll_thread_started = false) :
    (Event.shellError "Cannot start poll thread" ∈
        (cmd_stepper_move reg drv false st argv).2.1 ∧
      Event.hwMove dev (toInt32 (strtol (argv.getD arg_idx_param ""))) true ∈
        (cmd_stepper_move reg drv false st argv).2.1 ∧
      (cmd_stepper_move reg drv false st argv).1 =
        drv.move dev (toInt32 (strtol (argv.getD arg_idx_param ""))) ∧
      (cmd_stepper_move reg drv false st argv).2.2.poll_thread_started = false) ∧
    (Event.shellError "Cannot start poll thread" ∈
        (cmd_stepper_set_target_position reg drv false st argv).2.1 ∧
      Event.hwSetTargetPosition dev (toInt32 (strtol (argv.getD arg_idx_param ""))) true ∈
        (cmd_stepper_set_target_position reg drv false st argv).2.1 ∧
      (cmd_stepper_set_target_position reg drv false st argv).1 =
        drv.set_target_position dev (toInt32 (strtol (argv.getD arg_idx_param ""))) ∧
      (cmd_stepper_set_target_position reg drv false st argv).2.2.poll_thread_started =
        false) ∧
    (∀ c : Cmd, c ≠ .move → c ≠ .set_target_position →
      (runShellCmd reg drv false st c argv).2.2 = st) := by
  have hsp : start_polling false st =
      (-ENOEXEC, [.signalInit, .shellError "Cannot start poll thread"],
        { st with sig := .idle }) := by
    unfold start_polling
    rw [hs]
    rfl
  refine ⟨⟨?_, ?_, ?_, ?_⟩, ⟨?_, ?_, ?_, ?_⟩, ?_⟩
  case refine_9 =>
    intro c hm ht
    cases c <;> first | rfl | exact absurd rfl hm | exact absurd rfl ht
  all_goals
    simp [cmd_stepper_move, cmd_stepper_set_target_position, parse_device_arg_some h,
      hsp, hs, reportCap_fst, reportCap_mem]

/-- C3 amended witness: `set_target_position motorA 7` under failing
thread creation reports the error, still issues the hardware call, and
returns its code. -/
theorem C3_amended_thread_failure_witness :
    Event.shellError "Cannot start poll thread" ∈
      (cmd_stepper_set_target_position regA drvErr false initAsyncState
        ["set_target_position", "motorA", "7"]).2.1 ∧
    (cmd_stepper_set_target_position regA drvErr false initAsyncState
        ["set_target_position", "motorA", "7"]).1 =
      drvErr.set_target_position "motorA" (toInt32 (strtol "7")) :=
  ⟨(C3_amended_thread_failure_reported_not_propagated regA drvErr initAsyncState
      ["set_target_position", "motorA", "7"] "motorA" rfl rfl).2.1.1,
   (C3_amended_thread_failure_reported_not_propagated regA drvErr initAsyncState
      ["set_target_position", "motorA", "7"] "motorA" rfl rfl).2.1.2.2.1⟩

/-! ### Claim C9 -/

/-- `start_polling` never issues a hardware capability call. -/
theorem start_polling_no_hw (createOk : Bool) (st : AsyncState) :
    (start_polling createOk st).2.1.countP Event.isHwCall = 0 := by
  unfold start_polling
  split
  · split <;> rfl
  · rfl

/-- C9: for every command other than `info` on a resolved device (with,
for `enable`, a valid token), the command's result is exactly the code
returned by the single capability call it issues — zero on success, the
non-zero code verbatim on failure, with exactly one capability call (no
retry). -/
theorem C9_capability_code_propagated_verbatim (reg : Registry) (drv : Driver)
    (createOk : Bool) (st : AsyncState) (argv : List String) (dev : String)
    (h : reg (argv.getD arg_idx_dev "") = some dev) :
    (argv.getD arg_idx_param "" = "on" →
      (cmd_stepper_enable reg drv argv).1 = drv.enable dev true ∧
      (cmd_stepper_enable reg drv argv).2.countP Event.isHwCall = 1) ∧
    (argv.getD arg_idx_param "" = "off" →
      (cmd_stepper_enable reg drv argv).1 = drv.enable dev false ∧
      (cmd_stepper_enable reg drv argv).2.countP Event.isHwCall = 1) ∧
    ((cmd_stepper_move reg drv createOk st argv).1 =
        drv.move dev (toInt32 (strtol (argv.getD arg_idx_param ""))) ∧
      (cmd_stepper_move reg drv createOk st argv).2.1.countP Event.isHwCall = 1) ∧
    ((cmd_stepper_set_max_velocity reg drv argv).1 =
        drv.set_max_velocity dev (toUInt32n (strtoul (argv.getD arg_idx_param ""))) ∧
      (cmd_stepper_set_max_velocity reg drv argv).2.countP Event.isHwCall = 1) ∧
    ((cmd_stepper_set_micro_step_res reg drv argv).1 =
        drv.set_micro_step_res dev (atoi (argv.getD arg_idx_param "")) ∧
      (cmd_stepper_set_micro_step_res reg drv argv).2.countP Event.isHwCall = 1) ∧
    ((cmd_stepper_set_actual_position reg drv argv).1 =
        drv.set_actual_position dev (toInt32 (strtol (argv.getD arg_idx_param ""))) ∧
      (cmd_stepper_set_actual_position reg drv argv).2.countP Event.isHwCall = 1) ∧
    ((cmd_stepper_set_target_position reg drv createOk st argv).1 =
        drv.set_target_position dev (toInt32 (strtol (argv.getD arg_idx_param ""))) ∧
      (cmd_stepper_set_target_position reg drv createOk st argv).2.1.countP
        Event.isHwCall = 1) ∧
    ((cmd_stepper_enable_constant_velocity_mode reg drv argv).1 =
        drv.enable_constant_velocity_mode dev (atoi (argv.getD arg_idx_param ""))
          (toUInt32n (strtoul (argv.getD arg_idx_value ""))) ∧
      (cmd_stepper_enable_constant_velocity_mode reg drv argv).2.countP
        Event.isHwCall = 1) := by
  refine ⟨fun hon => ?_, fun hoff => ?_, ?_, ?_, ?_, ?_, ?_, ?_⟩
  · unfold cmd_stepper_enable
    rw [if_pos hon, parse_device_arg_some h]
    exact ⟨reportCap_fst _ _, by
      simp [List.countP_append, reportCap_countP_hw, Event.isHwCall]⟩
  · unfold cmd_stepper_enable
    have hon : ¬ argv.getD arg_idx_param "" = "on" := by
      rw [hoff]; decide
    rw [if_neg hon, if_pos hoff, parse_device_arg_some h]
    exact ⟨reportCap_fst _ _, by
      simp [List.countP_append, reportCap_countP_hw, Event.isHwCall]⟩
  all_goals
    simp [cmd_stepper_move, cmd_stepper_set_max_velocity, cmd_stepper_set_micro_step_res,
      cmd_stepper_set_actual_position, cmd_stepper_set_target_position,
      cmd_stepper_enable_constant_velocity_mode, parse_device_arg_some h,
      reportCap_fst, reportCap_countP_hw, start_polling_no_hw,
      List.countP_append, Event.isHwCall]

/-- C9 witness: `set_max_velocity motorA 100` with the failing driver
returns that driver's code -5 after exactly one capability call. -/
theorem C9_capability_code_propagated_verbatim_witness :
    (cmd_stepper_set_max_velocity regA drvErr ["set_max_velocity", "motorA", "100"]).1 =
      drvErr.set_max_velocity "motorA" (toUInt32n (strtoul "100")) ∧
    (cmd_stepper_set_max_velocity regA drvErr
        ["set_max_velocity", "motorA", "100"]).2.countP Event.isHwCall = 1 :=
  (C9_capability_code_propagated_verbatim regA drvErr true initAsyncState
    ["set_max_velocity", "motorA", "100"] "motorA" rfl).2.2.2.1

/-! ### Claim C1 -/

def isCreate : Event → Bool
  | .threadCreate => true
  | .threadStart => false
  | .signalInit => false
  | .hwEnable _ _ => false
  | .hwMove _ _ _ => false
  | .hwSetMaxVelocity _ _ => false
  | .hwSetMicroStepRes _ _ => false
  | .hwSetActualPosition _ _ => false
  | .hwSetTargetPosition _ _ _ => false
  | .hwEnableConstVelMode _ _ _ => false
  | .hwGetActualPosition _ => false
  | .hwGetMicroStepRes _ => false
  | .hwIsMoving _ => false
  | .shellError _ => false
  | .shellWarn _ => false
  | .shellPrint _ => false

/-- Number of `k_thread_create` calls recorded in a trace. -/
def countCreates (tr : List Event) : Nat := tr.countP isCreate

/-- An asynchronous command line: `move` or `set_target_position` with
its `argv`. -/
inductive AsyncCmd where
  | amove (argv : List String)
  | atarget (argv : List String)

/-- Dispatch one asynchronous command (thread creation succeeding when
attempted, as in the claim's scenario). -/
def runAsyncCmd (reg : Registry) (drv : Driver) (st : AsyncState) :
    AsyncCmd → Int × List Event × AsyncState
  | .amove argv => cmd_stepper_move reg drv true st argv
  | .atarget argv => cmd_stepper_set_target_position reg drv true st argv

/-- Run a sequence of asynchronous commands in the command-handling
context, accumulating the combined effect trace. -/
def runAsyncSeq (reg : Registry) (drv : Driver) :
    List AsyncCmd → AsyncState → List Event × AsyncState
  | [], st => ([], st)
  | c :: rest, st =>
      let r := runAsyncCmd reg drv st c
      let r2 := runAsyncSeq reg drv rest r.2.2
      (r.2.1 ++ r2.1, r2.2)

theorem countCreates_append (a b : List Event) :
    countCreates (a ++ b) = countCreates a + countCreates b := by
  simp [countCreates, List.countP_append]

theorem countCreates_cons (e : Event) (tr : List Event) :
    countCreates (e :: tr) = countCreates tr + if isCreate e then 1 else 0 := by
  simp [countCreates, List.countP_cons]

theorem countCreates_nil : countCreates [] = 0 := rfl

theorem reportCap_countCreates (err : Int) (ev : Event) :
    countCreates (reportCap err ev).2 = countCreates [ev] := by
  unfold reportCap
  split <;> simp [countCreates, List.countP_cons, isCreate]

/-- First call: with the flag unset and `k_thread_create` succeeding,
`start_polling` initializes the signal, creates and starts the thread,
and sets the flag. -/
theorem start_polling_first (st : AsyncState) (h : st.poll_thread_started = false) :
    start_polling true st =
      (0, [.signalInit, .threadCreate, .threadStart], ⟨true, .idle⟩) := by
  unfold start_polling
  rw [h]
  rfl

/-- Later calls: with the flag set, `start_polling` performs nothing. -/
theorem start_polling_already (createOk : Bool) (st : AsyncState)
    (h : st.poll_thread_started = true) :
    start_polling createOk st = (0, [], st) := by
  unfold start_polling
  rw [h]
  rfl

theorem runAsyncCmd_started (reg : Registry) (drv : Driver) (st : AsyncState)
    (c : AsyncCmd) (h : st.poll_thread_started = true) :
    countCreates (runAsyncCmd reg drv st c).2.1 = 0 ∧
    (runAsyncCmd reg drv st c).2.2.poll_thread_started = true := by
  cases c with
  | amove argv | atarget argv =>
    rcases hreg : reg (argv.getD arg_idx_dev "") with _ | dev
    · simp [runAsyncCmd, cmd_stepper_move, cmd_stepper_set_target_position,
        parse_device_arg_none hreg, countCreates_cons, countCreates, isCreate, h]
    · simp [runAsyncCmd, cmd_stepper_move, cmd_stepper_set_target_position,
        parse_device_arg_some hreg, start_polling_already true st h,
        countCreates_append, reportCap_countCreates, countCreates_cons,
        countCreates_nil, isCreate, h]

theorem runAsyncCmd_not_started (reg : Registry) (drv : Driver) (st : AsyncState)
    (c : AsyncCmd) (h : st.poll_thread_started = false) :
    (countCreates (runAsyncCmd reg drv st c).2.1 = 0 ∧
      (runAsyncCmd reg drv st c).2.2.poll_thread_started = false) ∨
    (countCreates (runAsyncCmd reg drv st c).2.1 = 1 ∧
      (runAsyncCmd reg drv st c).2.2.poll_thread_started = true) := by
  cases c with
  | amove argv | atarget argv =>
    rcases hreg : reg (argv.getD arg_idx_dev "") with _ | dev
    · left
      simp [runAsyncCmd, cmd_stepper_move, cmd_stepper_set_target_position,
        parse_device_arg_none hreg, countCreates_cons, countCreates, isCreate, h]
    · right
      simp [runAsyncCmd, cmd_stepper_move, cmd_stepper_set_target_position,
        parse_device_arg_some hreg, start_polling_first st h, countCreates_append,
        reportCap_countCreates, countCreates_cons, countCreates_nil, isCreate]

theorem runAsyncSeq_started (reg : Registry) (drv : Driver) (cs : List AsyncCmd)
    (st : AsyncState) (h : st.poll_thread_started = true) :
    countCreates (runAsyncSeq reg drv cs st).1 = 0 ∧
    (runAsyncSeq reg drv cs st).2.poll_thread_started = true := by
  induction cs generalizing st with
  | nil => exact ⟨rfl, h⟩
  | cons c rest ih =>
      have hc := runAsyncCmd_started reg drv st c h
      have hr := ih (runAsyncCmd reg drv st c).2.2 hc.2
      refine ⟨?_, hr.2⟩
      rw [show (runAsyncSeq reg drv (c :: rest) st).1 =
            (runAsyncCmd reg drv st c).2.1 ++
              (runAsyncSeq reg drv rest (runAsyncCmd reg drv st c).2.2).1 from rfl,
        countCreates_append, hc.1, hr.1]

theorem runAsyncSeq_le_one (reg : Registry) (drv : Driver) (cs : List AsyncCmd)
    (st : AsyncState) (h : st.poll_thread_started = false) :
    countCreates (runAsyncSeq reg drv cs st).1 ≤ 1 := by
  induction cs generalizing st with
  | nil => exact Nat.zero_le 1
  | cons c rest ih =>
      rcases runAsyncCmd_not_started reg drv st c h with ⟨h0, hs⟩ | ⟨h1, hs⟩
      · have hr := ih (runAsyncCmd reg drv st c).2.2 hs
        rw [show (runAsyncSeq reg drv (c :: rest) st).1 =
              (runAsyncCmd reg drv st c).2.1 ++
                (runAsyncSeq reg drv rest (runAsyncCmd reg drv st c).2.2).1 from rfl,
          countCreates_append, h0, Nat.zero_add]
        exact hr
      · have hr := runAsyncSeq_started reg drv rest (runAsyncCmd reg drv st c).2.2 hs
        rw [show (runAsyncSeq reg drv (c :: rest) st).1 =
              (runAsyncCmd reg drv st c).2.1 ++
                (runAsyncSeq reg drv rest (runAsyncCmd reg drv st c).2.2).1 from rfl,
          countCreates_append, h1, hr.1]

/-- C1: over every sequence of asynchronous commands (`move`,
`set_target_position`) issued from process start, the listener thread is
created at most once; the first `start_polling` call (flag unset,
creation succeeding) creates and starts the thread and sets the flag,
and every call that observes the flag set performs no creation. -/
theorem C1_listener_thread_created_at_most_once (reg : Registry) (drv : Driver)
    (cs : List AsyncCmd) :
    countCreates (runAsyncSeq reg drv cs initAsyncState).1 ≤ 1 ∧
    (∀ st : AsyncState, st.poll_thread_started = false →
      start_polling true st =
        (0, [.signalInit, .threadCreate, .threadStart], ⟨true, .idle⟩)) ∧
    (∀ (createOk : Bool) (st : AsyncState), st.poll_thread_started = true →
      start_polling createOk st = (0, [], st)) :=
  ⟨runAsyncSeq_le_one reg drv cs initAsyncState rfl,
   fun st h => start_polling_first st h,
   fun createOk st h => start_polling_already createOk st h⟩

/-- C1 witness: three consecutive asynchronous commands create the
listener at most once, the first `start_polling` from the initial state
creates it, and a repeat call from the started state does nothing. -/
theorem C1_listener_thread_created_at_most_once_witness :
    countCreates (runAsyncSeq regA drvZero
      [.amove ["move", "motorA", "100"],
       .atarget ["set_target_position", "motorA", "7"],
       .amove ["move", "motorA", "9"]] initAsyncState).1 ≤ 1 ∧
    start_polling true initAsyncState =
      (0, [.signalInit, .threadCreate, .threadStart], ⟨true, .idle⟩) ∧
    start_polling true ⟨true, .idle⟩ = (0, [], ⟨true, .idle⟩) :=
  ⟨(C1_listener_thread_created_at_most_once regA drvZero
      [.amove ["move", "motorA", "100"],
       .atarget ["set_target_position", "motorA", "7"],
       .amove ["move", "motorA", "9"]]).1,
   (C1_listener_thread_created_at_most_once regA drvZero []).2.1 initAsyncState rfl,
   (C1_listener_thread_created_at_most_once regA drvZero []).2.2 true ⟨true, .idle⟩ rfl⟩

end StepperShell
